import Mathlib

/-!
Shallow embedding of the optimized documentation-generation pipeline of the
DocuGenius repository (`src/lib/optimized-documentation-service.ts`, plus the
empty-file-list guard of `src/app/api/generate-documentation-optimized/route.ts`).

Modelling conventions:
* TypeScript strings are Lean `String`; JavaScript's per-code-unit operations
  (`slice`, `length`, `includes`, `toLowerCase`) are modelled on the character
  sequence of the `String`.
* JavaScript numbers used for progress percentages are modelled as `ℚ`
  (the concrete operations performed — additions, multiplications and divisions
  by the constants 60, 3/10, and the file counts — are all order-preserving in
  IEEE doubles exactly as in `ℚ`, and the three compiler checkpoints
  70 + p·0.3 for p ∈ {75, 90, 100} round to exactly 92.5, 97 and 100).
* The external LLM completion service is an oracle parameter: every
  `openai.chat.completions.create` call site takes the oracle's reply for that
  call.  For the per-file analyzer the reply distinguishes exactly the outcomes
  the source distinguishes: promise rejection, missing/empty `content`,
  `JSON.parse` throwing, and a parsed object.  The source casts the parsed
  object to `FileAnalysis` without any validation, so the file carries two
  models of it: `AnalyzerReply.parsed` with a well-formed `FileAnalysis`
  payload (the fragment the value-level pipeline is stated over), and
  `RawReply.parsed` with every top-level field optional, which exposes the
  reachable `TypeError` path in the compiler stage that a missing
  `filePath`/`importance` triggers (see the refined model before claim C4).
* `Date.now()` readings are oracle parameters (`startTime`, `now`).
* Fallible code paths are modelled by `Except`/explicit branches; stateful
  in-place mutation (`Array.prototype.sort`) is modelled by explicit heap
  passing where the claim is about the mutation itself.
-/

/-! ## Data model (type definitions of the source file) -/

structure FunctionParam where
  name : String
  type : String
  description : String
deriving DecidableEq, Inhabited, Repr

structure ReturnInfo where
  type : String
  description : String
deriving DecidableEq, Inhabited, Repr

structure FunctionAnalysis where
  name : String
  description : String
  parameters : List FunctionParam
  complexity : String
  returns : Option ReturnInfo
deriving DecidableEq, Inhabited, Repr

structure MethodAnalysis where
  name : String
  description : String
  parameters : List FunctionParam
  returns : ReturnInfo
  visibility : Option String
deriving DecidableEq, Inhabited, Repr

structure ClassAnalysis where
  name : String
  description : String
  methods : List MethodAnalysis
deriving DecidableEq, Inhabited, Repr

/-- `FileAnalysis` of the source.  `importance` is a `String` because the
parsed JSON is cast to the TypeScript interface without validation, so the
runtime value is whatever the provider returned. -/
structure FileAnalysis where
  filePath : String
  summary : String
  importance : String
  complexity : Int
  functions : List FunctionAnalysis
  classes : List ClassAnalysis
  dependencies : List String
  cacheKey : String
  analysisTime : Nat
deriving DecidableEq, Inhabited, Repr

structure ProjectContext where
  name : String
  description : String
  framework : String
  language : String
  patterns : List String
deriving DecidableEq, Inhabited, Repr

structure GitHubFile where
  name : String
  path : String
  content : String
  language : String
  size : Nat
  sha : String
deriving DecidableEq, Inhabited, Repr

structure RepositoryInfo where
  name : String
  fullName : String
  description : Option String
  language : Option String
  topics : List String
  defaultBranch : String
deriving DecidableEq, Inhabited, Repr

/-- `ProgressEvent` of the source; no emission site populates the optional
`data` payload, so it is omitted. -/
structure ProgressEvent where
  type : String
  message : String
  progress : ℚ
deriving DecidableEq, Inhabited, Repr

/-! ## Agent 1: FileCollectorAgent -/

/-- Executable prefix test on character lists. -/
def charsPrefix : List Char → List Char → Bool
  | [], _ => true
  | _ :: _, [] => false
  | a :: as, b :: bs => a == b && charsPrefix as bs

/-- Executable substring test on character lists. -/
def charsContain (needle : List Char) : List Char → Bool
  | [] => needle.isEmpty
  | b :: bs => charsPrefix needle (b :: bs) || charsContain needle bs

/-- JavaScript `haystack.includes(needle)` (substring containment). -/
def strIncludes (haystack needle : String) : Bool :=
  charsContain needle.data haystack.data

/-- `FileCollectorAgent.determineCategory`: case-insensitive first-match-wins
substring classification of `file.path`. -/
def determineCategory (file : GitHubFile) : String :=
  let path := file.path.toLower
  -- Core application files (highest priority)
  if strIncludes path "main." || strIncludes path "index." || strIncludes path "app." then
    "core"
  -- API/Routes (high priority)
  else if strIncludes path "/api/" || strIncludes path "/routes/" || strIncludes path "route." then
    "api"
  -- Components (medium priority)
  else if strIncludes path "/components/" || strIncludes path "/ui/" then
    "components"
  -- Configuration (low priority)
  else if strIncludes path "config" || strIncludes path ".json" || strIncludes path ".yaml" then
    "config"
  -- Utilities (low priority)
  else if strIncludes path "/utils/" || strIncludes path "/lib/" || strIncludes path "/helpers/" then
    "utils"
  else
    "other"

/-- The `priorityMap` table of `FileCollectorAgent.prioritizeFiles`; the final
`0` mirrors the source's `|| 0` default for a key missing from the table. -/
def priorityMap (category : String) : Nat :=
  if category = "core" then 100
  else if category = "api" then 80
  else if category = "components" then 60
  else if category = "utils" then 40
  else if category = "config" then 20
  else if category = "other" then 10
  else 0

/-- Priority of one file, as computed inside the sort comparator. -/
def filePriority (f : GitHubFile) : Nat :=
  priorityMap (determineCategory f)

/-- One step of the stable descending insertion used to model
`files.sort((a, b) => bPriority - aPriority)`.  ECMAScript's `Array.prototype.sort`
is required to be stable, and a stable sort under the total preorder
"higher `filePriority` first" has a unique result: an element walks past
exactly the strictly-higher-priority elements in front of it and stays ahead of
equal-priority elements that came later in the input.  That unique result is
computed by this insertion. -/
def sortInsert (f : GitHubFile) : List GitHubFile → List GitHubFile
  | [] => [f]
  | g :: gs =>
    if filePriority f < filePriority g then g :: sortInsert f gs
    else f :: g :: gs

/-- `FileCollectorAgent.prioritizeFiles` (value semantics of the sorted
array; the in-place aliasing effect is modelled separately by
`prioritizeFilesInPlace`). -/
def prioritizeFiles : List GitHubFile → List GitHubFile
  | [] => []
  | f :: fs => sortInsert f (prioritizeFiles fs)

/-- Heap of JavaScript array objects: one `List GitHubFile` per reference. -/
def ArrayHeap : Type := Nat → List GitHubFile

/-- `prioritizeFiles` as the source actually executes it: `files.sort(...)`
sorts the array object **in place** and returns `this`, so the call returns the
very same reference it was given and overwrites that array's contents. -/
def prioritizeFilesInPlace (r : Nat) (h : ArrayHeap) : Nat × ArrayHeap :=
  (r, fun q => if q = r then prioritizeFiles (h r) else h q)

/-- `FileCollectorAgent.categorizeFiles`: insertion-ordered map from category
to files (the orchestrator computes it but never reads it downstream). -/
def categorizeFiles (files : List GitHubFile) : List (String × List GitHubFile) :=
  files.foldl
    (fun m f =>
      let c := determineCategory f
      if m.any (fun p => p.1 = c) then
        m.map (fun p => if p.1 = c then (p.1, p.2 ++ [f]) else p)
      else
        m ++ [(c, [f])])
    []

/-! ## Classifier: spec-side description (for the refinement claim C7) -/

/-- Modelled from the spec's words for `classify` (§4.1): ordered rule list,
first match wins, case-insensitive substring matching on the path. -/
def classifySpec (file : GitHubFile) : String :=
  let p := file.path.toLower
  if strIncludes p "main." || strIncludes p "index." || strIncludes p "app." then "core"
  else if strIncludes p "/api/" || strIncludes p "/routes/" || strIncludes p "route." then "api"
  else if strIncludes p "/components/" || strIncludes p "/ui/" then "components"
  else if strIncludes p "config" || strIncludes p ".json" || strIncludes p ".yaml" then "config"
  else if strIncludes p "/utils/" || strIncludes p "/lib/" || strIncludes p "/helpers/" then "utils"
  else "other"

/-! ## Agent 2: FileAnalyzerAgent -/

/-- Reply of the completion service for one `analyzeFile` call, distinguishing
exactly the outcomes the source distinguishes inside its `try`:
rejection of the `create` call, missing/empty `message.content`,
`JSON.parse` throwing on the content, and a successfully parsed object.
The `parsed` payload here is a well-formed `FileAnalysis` (only `importance`
relaxed to `String`): this is the fragment over which the value-level
pipeline below is stated.  The source performs no validation at all, so a
parse success may also yield an object with missing top-level fields;
`RawReply` (before claim C4) models that general case and the compiler-stage
`TypeError` it can reach. -/
inductive AnalyzerReply where
  | failure
  | noContent
  | badJson
  | parsed (a : FileAnalysis)
deriving DecidableEq, Inhabited, Repr

/-- One character of `path.replace(/[^a-zA-Z0-9]/g, '_')`. -/
def sanitizeChar (c : Char) : Char :=
  if c.isAlphanum then c else '_'

/-- The RFC 4648 base64 alphabet used by `Buffer.toString('base64')`. -/
def b64Alphabet : String :=
  "ABCDEFGHIJKLMNOPQRSTUVWXYZabcdefghijklmnopqrstuvwxyz0123456789+/"

def b64Char (n : Nat) : Char := b64Alphabet.data.getD n 'A'

/-- Base64 encoding of a byte list (values < 256), with `=` padding. -/
def base64Chunks : List Nat → List Char
  | [] => []
  | [a] => [b64Char (a / 4), b64Char (a % 4 * 16), '=', '=']
  | [a, b] => [b64Char (a / 4), b64Char (a % 4 * 16 + b / 16), b64Char (b % 16 * 4), '=']
  | a :: b :: c :: rest =>
    b64Char (a / 4) :: b64Char (a % 4 * 16 + b / 16) ::
      b64Char (b % 16 * 4 + c / 64) :: b64Char (c % 64) :: base64Chunks rest

/-- UTF-8 bytes of a string (`Buffer.from(string)`). -/
def utf8Bytes (s : String) : List Nat :=
  s.toUTF8.toList.map (fun b => b.toNat)

/-- `FileAnalyzerAgent.generateCacheKey`:
`file_${path.replace(/[^a-zA-Z0-9]/g, '_')}_${base64(content.slice(0, 1000)).slice(0, 16)}`.
A pure function of `file.path` and `file.content` only. -/
def generateCacheKey (file : GitHubFile) : String :=
  let contentHash :=
    String.mk ((base64Chunks (utf8Bytes (String.mk (file.content.data.take 1000)))).take 16)
  "file_" ++ String.mk (file.path.data.map sanitizeChar) ++ "_" ++ contentHash

/-- `FileAnalyzerAgent.getFromCache`: the source's TODO stub always returns
`null` (no cache backend is wired up). -/
def getFromCache (_cacheKey : String) : Option FileAnalysis := none

/-- Content truncation of `buildFileAnalysisPrompt`: contents longer than the
8000-character ceiling are cut to the first 8000 characters and a truncation
marker is appended; shorter content passes through unmodified. -/
def truncateContent (content : String) : String :=
  if content.length > 8000 then String.mk (content.data.take 8000) ++ "\n... (truncated)"
  else content

/-- Text of the prompt before the (possibly truncated) file content. -/
def promptPre (file : GitHubFile) (context : ProjectContext) : String :=
  "Analyze this " ++ file.language ++ " file from the " ++ context.name ++
  " project.\n\nFile: " ++ file.path ++ "\nFramework: " ++ context.framework ++
  "\nContent:\n"

/-- Text of the prompt after the (possibly truncated) file content: the JSON
shape requested from the provider. -/
def promptPost (file : GitHubFile) : String :=
  "\n\nProvide a JSON analysis with this exact structure:\n" ++
  "\x7b\n  \"filePath\": \"" ++ file.path ++ "\",\n" ++
  "  \"summary\": \"Brief 2-3 sentence summary of what this file does\",\n" ++
  "  \"importance\": \"critical|high|medium|low\",\n" ++
  "  \"complexity\": 1-10,\n" ++
  "  \"functions\": [\n    \x7b\n      \"name\": \"functionName\",\n" ++
  "      \"description\": \"What this function does\",\n" ++
  "      \"parameters\": [\x7b\"name\": \"param\", \"type\": \"string\", \"description\": \"param description\"\x7d],\n" ++
  "      \"complexity\": \"simple|moderate|complex\"\n    \x7d\n  ],\n" ++
  "  \"classes\": [\n    \x7b\n      \"name\": \"ClassName\",\n" ++
  "      \"description\": \"What this class does\",\n" ++
  "      \"methods\": [\x7b\"name\": \"method\", \"description\": \"method description\", \"parameters\": [], \"returns\": \x7b\"type\": \"void\", \"description\": \"\"\x7d\x7d]\n    \x7d\n  ],\n" ++
  "  \"dependencies\": [\"array\", \"of\", \"imported\", \"modules\"]\n\x7d\n\n" ++
  "Focus on practical value for developers. Be concise but accurate."

/-- `FileAnalyzerAgent.buildFileAnalysisPrompt`. -/
def buildFileAnalysisPrompt (file : GitHubFile) (context : ProjectContext) : String :=
  promptPre file context ++ truncateContent file.content ++ promptPost file

/-- `FileAnalyzerAgent.analyzeFile`.  The cache key is computed before the
`try`; `getFromCache` always misses; the prompt is built and sent to the
provider, whose outcome is the oracle `r`; any error after the call begins is
caught and turned into the fallback stub (the source's `catch` block); a
successful parse is returned with `cacheKey` and `analysisTime` overwritten
(`cacheAnalysis` is a no-op TODO stub).  `startTime` and `now` are the two
`Date.now()` readings. -/
def analyzeFile (r : AnalyzerReply) (startTime now : Nat) (file : GitHubFile)
    (ctx : ProjectContext) : FileAnalysis :=
  let cacheKey := generateCacheKey file
  match getFromCache cacheKey with
  | some cached => cached
  | none =>
    let _prompt := buildFileAnalysisPrompt file ctx
    match r with
    | .parsed a => { a with cacheKey := cacheKey, analysisTime := now - startTime }
    | _ =>
      { filePath := file.path
        summary := file.language ++ " file - analysis failed"
        importance := "low"
        complexity := 5
        functions := []
        classes := []
        dependencies := []
        cacheKey := cacheKey
        analysisTime := now - startTime }

/-! ## Agent 3: DocumentationCompilerAgent -/

/-- Reply of the completion service for one synthesis call (overview or
architecture): rejection, or resolution with `choices[0]?.message?.content`
(`none` models a missing/empty content, which the source's `|| fallback`
replaces). -/
inductive TextReply where
  | failure
  | content (s : Option String)
deriving DecidableEq, Inhabited, Repr

structure GroupedAnalyses where
  critical : List FileAnalysis
  high : List FileAnalysis
  medium : List FileAnalysis
  low : List FileAnalysis
  api : List FileAnalysis
deriving DecidableEq, Inhabited, Repr

/-- `DocumentationCompilerAgent.groupAnalyses`. -/
def groupAnalyses (analyses : List FileAnalysis) : GroupedAnalyses :=
  { critical := analyses.filter (fun a => a.importance == "critical")
    high := analyses.filter (fun a => a.importance == "high")
    medium := analyses.filter (fun a => a.importance == "medium")
    low := analyses.filter (fun a => a.importance == "low")
    api := analyses.filter (fun a =>
      strIncludes a.filePath "/api/" || strIncludes a.filePath "route.") }

/-- `generateOverview`: with no critical files it returns a template without
calling the provider; otherwise the provider reply (or one of the two
fallbacks) is returned.  The prompt text itself is dead weight for every
observable modelled here and is elided. -/
def generateOverview (r : TextReply) (criticalFiles : List FileAnalysis)
    (context : ProjectContext) : String :=
  if criticalFiles.isEmpty then
    context.name ++ " is a " ++ context.framework ++ " application built with " ++
    context.language ++ ". This project provides functionality through a " ++
    "well-structured codebase with multiple components working together to " ++
    "deliver a cohesive user experience."
  else
    match r with
    | .content (some s) => s
    | .content none => context.name ++ " - A " ++ context.framework ++ " application."
    | .failure =>
      context.name ++ " is a modern " ++ context.framework ++
      " application that provides robust functionality through a well-architected codebase."

/-- `generateArchitecture`: always calls the provider (no emptiness check). -/
def generateArchitecture (r : TextReply) (_highPriorityFiles : List FileAnalysis)
    (context : ProjectContext) : String :=
  match r with
  | .content (some s) => s
  | .content none => "Architecture information not available."
  | .failure =>
    context.name ++ " follows a modern " ++ context.framework ++
    " architecture with well-separated concerns and modular design."

/-- `generateApiReference`: pure derivation, no provider call. -/
def generateApiReference (apiFiles : List FileAnalysis) : String :=
  if apiFiles.isEmpty then "No API endpoints found in this project."
  else
    "## API Endpoints\n\n" ++
    String.intercalate "\n\n" (apiFiles.map (fun file =>
      "### " ++ file.filePath ++ "\n" ++ file.summary ++ "\n\n" ++
      String.intercalate "\n" (file.functions.map (fun f =>
        "- **" ++ f.name ++ "**: " ++ f.description))))

/-- `name.toLowerCase().replace(/\s+/g, '-')`: every maximal whitespace run
becomes a single dash. -/
def collapseWs : List Char → List Char
  | [] => []
  | c :: cs =>
    if c.isWhitespace then '-' :: collapseWs (cs.dropWhile Char.isWhitespace)
    else c :: collapseWs cs
termination_by l => l.length
decreasing_by
  · exact Nat.lt_succ_of_le (List.dropWhile_sublist _).length_le
  · simp

/-- `generateGettingStarted`: pure template from the framework→command table. -/
def generateGettingStarted (context : ProjectContext) : String :=
  let commands : String × String :=
    if context.framework = "Next.js" then ("npm install", "npm run dev")
    else if context.framework = "React" then ("npm install", "npm start")
    else if context.framework = "Vue.js" then ("npm install", "npm run serve")
    else if context.framework = "Express.js" then ("npm install", "npm start")
    else ("npm install", "npm start")
  "## Getting Started\n\n### Prerequisites\n- Node.js (version 16 or higher)\n" ++
  "- npm or yarn package manager\n\n### Installation\n\n1. Clone the repository:\n" ++
  "```bash\ngit clone <repository-url>\ncd " ++
  String.mk (collapseWs context.name.toLower.data) ++
  "\n```\n\n2. Install dependencies:\n```bash\n" ++ commands.1 ++
  "\n```\n\n3. Start the development server:\n```bash\n" ++ commands.2 ++
  "\n```\n\nThe application will be available at `http://localhost:3000` " ++
  "(or the port specified in your configuration).\n\n### Environment Setup\n" ++
  "Make sure to configure any necessary environment variables by copying " ++
  "`.env.example` to `.env.local` and filling in the required values."

/-- Directory part of a path (`substring(0, lastIndexOf('/'))`, or `"."`). -/
def dirname (p : String) : String :=
  if strIncludes p "/" then String.intercalate "/" ((p.splitOn "/").dropLast)
  else "."

/-- `filePath.split('/').pop() || filePath`. -/
def basename (p : String) : String :=
  let b := (p.splitOn "/").getLastD p
  if b = "" then p else b

/-- Append a file name under its directory key, keeping insertion order. -/
def addDirEntry (m : List (String × List String)) (d b : String) :
    List (String × List String) :=
  if m.any (fun e => e.1 = d) then
    m.map (fun e => if e.1 = d then (e.1, e.2 ++ [b]) else e)
  else m ++ [(d, [b])]

/-- Ascending insertion by directory key (`localeCompare` modelled as
code-point order; directory keys are pairwise distinct here, so stability is
irrelevant). -/
def insDirEntry (e : String × List String) : List (String × List String) →
    List (String × List String)
  | [] => [e]
  | g :: gs => if decide (g.1 < e.1) then g :: insDirEntry e gs else e :: g :: gs

def sortDirEntries : List (String × List String) → List (String × List String)
  | [] => []
  | e :: es => insDirEntry e (sortDirEntries es)

/-- `generateProjectStructure`: directory tree text. -/
def generateProjectStructure (analyses : List FileAnalysis) : String :=
  let filesByDirectory :=
    analyses.foldl (fun m a => addDirEntry m (dirname a.filePath) (basename a.filePath)) []
  let body :=
    (sortDirEntries filesByDirectory).foldl (fun acc e =>
      acc ++ (if e.1 ≠ "." then e.1 ++ "/\n" else "") ++
      String.join ((e.2.take 10).map (fun f => "  " ++ f ++ "\n")) ++
      (if e.2.length > 10 then
        "  ... and " ++ toString (e.2.length - 10) ++ " more files\n" else "")) ""
  "```\n" ++ body ++ "```\n\n" ++
  "This project follows a well-organized structure with clear separation of concerns."

/-- `generateKeyComponents`: top-8 critical/high files (`|| fallback` fires
exactly when the joined string is empty, i.e. when the filter is empty). -/
def generateKeyComponents (analyses : List FileAnalysis) : String :=
  let selected :=
    (analyses.filter (fun a => a.importance == "critical" || a.importance == "high")).take 8
  if selected.isEmpty then "Key components analysis not available."
  else
    String.intercalate "\n\n" (selected.map (fun a =>
      "### " ++ a.filePath ++ "\n\n" ++ a.summary ++ "\n\n**Importance**: " ++
      a.importance ++ "\n**Complexity**: " ++ toString a.complexity ++ "/10"))

/-- `generateUsageExamples`. -/
def generateUsageExamples (analyses : List FileAnalysis) (context : ProjectContext) : String :=
  let exampleFunctions :=
    (((analyses.map (fun a => a.functions)).flatten).filter
      (fun f => f.complexity == "simple")).take 3
  if exampleFunctions.isEmpty then
    "## Usage Examples\n\nThis " ++ context.framework ++
    " application provides various functionality through its components. " ++
    "Refer to the individual file documentation for specific usage patterns and examples."
  else
    exampleFunctions.foldl (fun acc func =>
      acc ++ "### " ++ func.name ++ "\n\n" ++ func.description ++ "\n\n" ++
      (if func.parameters.isEmpty then ""
       else
        "**Parameters:**\n" ++
        String.join (func.parameters.map (fun param =>
          "- `" ++ param.name ++ "` (" ++ param.type ++ "): " ++ param.description ++ "\n")) ++
        "\n")) "## Usage Examples\n\n"

structure CodeQuality where
  readability : Int
  complexity : Int
  maintainability : Int
deriving DecidableEq, Inhabited, Repr

structure FileDocRecord where
  summary : String
  purpose : String
  importance : String
  keyFunctions : List FunctionAnalysis
  classes : List ClassAnalysis
  dependencies : List String
  codeQuality : CodeQuality
deriving DecidableEq, Inhabited, Repr

/-- `importance.charAt(0).toUpperCase() + importance.slice(1)`. -/
def capitalizeStr (s : String) : String :=
  match s.data with
  | [] => ""
  | c :: cs => String.mk (c.toUpper :: cs)

/-- JavaScript object-key assignment: update in place or append. -/
def upsertDoc (m : List (String × FileDocRecord)) (k : String) (v : FileDocRecord) :
    List (String × FileDocRecord) :=
  if m.any (fun e => e.1 = k) then m.map (fun e => if e.1 = k then (k, v) else e)
  else m ++ [(k, v)]

/-- `convertAnalysesToDocs` (`Math.floor(x / n)` on a JS number is `Int.fdiv`). -/
def convertAnalysesToDocs (analyses : List FileAnalysis) :
    List (String × FileDocRecord) :=
  analyses.foldl (fun docs analysis =>
    upsertDoc docs analysis.filePath
      { summary := analysis.summary
        purpose := capitalizeStr analysis.importance ++ " component in the project architecture"
        importance := capitalizeStr analysis.importance
        keyFunctions := analysis.functions
        classes := analysis.classes
        dependencies := analysis.dependencies
        codeQuality :=
          { readability := max 1 (10 - Int.fdiv analysis.complexity 2)
            complexity := analysis.complexity
            maintainability := max 1 (10 - Int.fdiv analysis.complexity 3) } }) []

/-- `Set.add`: JavaScript sets keep insertion order and drop duplicates. -/
def addUnique (l : List String) (s : String) : List String :=
  if l.contains s then l else l ++ [s]

def featuresOf (l : List String) (a : FileAnalysis) : List String :=
  let l := if strIncludes a.filePath "/api/" then addUnique l "RESTful API" else l
  let l := if strIncludes a.filePath "/auth/" then addUnique l "Authentication System" else l
  let l := if strIncludes a.filePath "database" || strIncludes a.filePath "db" then
    addUnique l "Database Integration" else l
  let l := if strIncludes a.filePath "/components/" then addUnique l "Reusable Components" else l
  if !a.functions.isEmpty then addUnique l "Modular Functions" else l

/-- `extractKeyFeatures`. -/
def extractKeyFeatures (analyses : List FileAnalysis) : List String :=
  ((analyses.filter (fun a =>
    a.importance == "critical" || a.importance == "high")).foldl featuresOf []).take 6

def techOfDep (l : List String) (dep : String) : List String :=
  let l := if strIncludes dep "react" then addUnique l "React" else l
  let l := if strIncludes dep "next" then addUnique l "Next.js" else l
  let l := if strIncludes dep "express" then addUnique l "Express.js" else l
  let l := if strIncludes dep "prisma" then addUnique l "Prisma ORM" else l
  let l := if strIncludes dep "auth" then addUnique l "Authentication" else l
  if strIncludes dep "typescript" then addUnique l "TypeScript" else l

/-- `extractTechnologies`. -/
def extractTechnologies (analyses : List FileAnalysis) (context : ProjectContext) :
    List String :=
  (analyses.foldl (fun l a => a.dependencies.foldl techOfDep l)
    (addUnique (addUnique [] context.framework) context.language)).take 8

/-- `generateUseCases`. -/
def generateUseCases (context : ProjectContext) : List String :=
  ([context.framework ++ " application development",
    "Code documentation and analysis",
    "Developer workflow automation"] ++
   (if strIncludes context.framework "Next" then
     ["Full-stack web applications", "Server-side rendering"] else [])).take 5

/-- `generateBenefits`. -/
def generateBenefits (context : ProjectContext) : List String :=
  ["Well-structured and maintainable codebase",
   "Modern " ++ context.framework ++ " architecture",
   "Comprehensive error handling",
   "Developer-friendly implementation",
   "Scalable and extensible design"]

/-- `calculateComplexity`.  On an empty list the source computes `0 / 0 = NaN`
and both `NaN <= 4` and `NaN <= 7` are false, so the result is "High". -/
def calculateComplexity (analyses : List FileAnalysis) : String :=
  if analyses.isEmpty then "High"
  else
    let avg : ℚ := ((analyses.map (fun a => (a.complexity : ℚ))).sum) / analyses.length
    if avg ≤ 4 then "Low" else if avg ≤ 7 then "Medium" else "High"

/-- `assessMaintainability` (the empty-critical case is handled explicitly in
the source with a default average of 5). -/
def assessMaintainability (analyses : List FileAnalysis) : String :=
  let criticalFiles := analyses.filter (fun a => a.importance == "critical")
  let avg : ℚ :=
    if criticalFiles.isEmpty then 5
    else ((criticalFiles.map (fun a => (a.complexity : ℚ))).sum) / criticalFiles.length
  if avg ≤ 3 then "Excellent"
  else if avg ≤ 5 then "Good"
  else if avg ≤ 7 then "Fair"
  else "Needs Improvement"

/-- `assessTestCoverage`. -/
def assessTestCoverage (analyses : List FileAnalysis) : String :=
  if analyses.any (fun a =>
    strIncludes a.filePath "test" || strIncludes a.filePath "spec" ||
    strIncludes a.filePath "__tests__") then
    "Tests detected in codebase"
  else "No test files detected"

/-- `assessPerformance`.  On an empty list `0 / 0 = NaN` and `NaN > 0.3` is
false, so the "Good" branch is taken. -/
def assessPerformance (analyses : List FileAnalysis) : String :=
  if analyses.isEmpty then "Good - Well-structured code with reasonable complexity"
  else if ((analyses.filter (fun a => a.complexity > 7)).length : ℚ) / analyses.length > 3 / 10 then
    "Consider optimization for complex files"
  else "Good - Well-structured code with reasonable complexity"

structure Highlights where
  keyFeatures : List String
  technologies : List String
  useCases : List String
  benefits : List String
deriving DecidableEq, Inhabited, Repr

structure Metrics where
  complexity : String
  maintainability : String
  testCoverage : String
  performance : String
deriving DecidableEq, Inhabited, Repr

structure ProjectAnalysis where
  overview : String
  architecture : String
  gettingStarted : String
  apiReference : String
  projectStructure : String
  keyComponents : String
  usageExamples : String
  highlights : Highlights
  metrics : Metrics
  fileDocumentations : List (String × FileDocRecord)
deriving DecidableEq, Inhabited, Repr

/-- `DocumentationCompilerAgent.synthesizeDocumentation`.  Besides the
document it returns the raw values passed to its `onProgress` callback, in
emission order: 75 before the synthesis calls, 90 after they settle, 100 after
assembly. -/
def synthesizeDocumentation (ovR archR : TextReply) (analyses : List FileAnalysis)
    (context : ProjectContext) : ProjectAnalysis × List ℚ :=
  let grouped := groupAnalyses analyses
  let doc : ProjectAnalysis :=
    { overview := generateOverview ovR grouped.critical context
      architecture := generateArchitecture archR grouped.high context
      apiReference := generateApiReference grouped.api
      gettingStarted := generateGettingStarted context
      projectStructure := generateProjectStructure analyses
      keyComponents := generateKeyComponents analyses
      usageExamples := generateUsageExamples analyses context
      highlights :=
        { keyFeatures := extractKeyFeatures analyses
          technologies := extractTechnologies analyses context
          useCases := generateUseCases context
          benefits := generateBenefits context }
      metrics :=
        { complexity := calculateComplexity analyses
          maintainability := assessMaintainability analyses
          testCoverage := assessTestCoverage analyses
          performance := assessPerformance analyses }
      fileDocumentations := convertAnalysesToDocs analyses }
  (doc, [75, 90, 100])

/-! ## Orchestrator: framework detection, batch scheduler, pipeline -/

/-- `detectFramework`.  `pkgParse` is the `JSON.parse` oracle for the
`package.json` content: `none` models a parse failure (the source's `catch`
falls through to the file-pattern checks), `some deps` the names present in
`content.dependencies`.  A parse success with no matching dependency also
falls through to the file-pattern checks. -/
def detectFramework (pkgParse : String → Option (List String))
    (files : List GitHubFile) : String :=
  let byPattern :=
    if files.any (fun f => strIncludes f.path "next.config") then "Next.js"
    else if files.any (fun f => strIncludes f.path "vite.config") then "Vite"
    else if files.any (fun f => strIncludes f.path "nuxt.config") then "Nuxt.js"
    else "Unknown"
  match files.find? (fun f => f.name == "package.json") with
  | some pkg =>
    match pkgParse pkg.content with
    | some deps =>
      if deps.contains "next" then "Next.js"
      else if deps.contains "react" then "React"
      else if deps.contains "vue" then "Vue.js"
      else if deps.contains "express" then "Express.js"
      else if deps.contains "fastify" then "Fastify"
      else if deps.contains "@nestjs/core" then "NestJS"
      else byPattern
    | none => byPattern
  | none => byPattern

/-- The analysis produced for the `j`-th analyzed file of a run (the oracle is
indexed by the position of the file in the capped prioritized order). -/
def analysisOf (reply : Nat → AnalyzerReply) (tm : Nat → Nat × Nat)
    (ctx : ProjectContext) (j : Nat) (f : GitHubFile) : FileAnalysis :=
  analyzeFile (reply j) (tm j).1 (tm j).2 f ctx

/-- Index-carrying map used to state what the batch loop accumulates. -/
def mapIdxFrom (g : Nat → GitHubFile → FileAnalysis) : Nat → List GitHubFile → List FileAnalysis
  | _, [] => []
  | j, f :: fs => g j f :: mapIdxFrom g (j + 1) fs

/-- The percentage emitted after a batch: `10 + ((i + batch.length) / maxFiles) * 60`
with `done = i + batch.length` files processed so far. -/
def evProg (maxFiles done : Nat) : ℚ :=
  10 + ((done : ℚ) / (maxFiles : ℚ)) * 60

/-- The batch loop of `generateDocumentationStream` (step 2): from index `i`,
`for (let i = 0; i < maxFiles; i += batchSize)` with `batchSize = 3`.  Each
batch is `prioritizedFiles.slice(i, i + 3)`; the batch's `analyzeFile` calls
are fanned out and collected with `Promise.allSettled`; `analyzeFile` never
rejects, so every result is fulfilled and is appended in batch order.  After
each batch one `analyzing` event is emitted whose percentage interpolates the
number of files processed so far across the 10–70 band and whose message is
`Analyzed ${analyses.length}/${maxFiles} files`. -/
def schedLoop (reply : Nat → AnalyzerReply) (tm : Nat → Nat × Nat)
    (pf : List GitHubFile) (ctx : ProjectContext) (maxFiles i : Nat) :
    List FileAnalysis × List ProgressEvent :=
  if i < maxFiles then
    let batch := (pf.drop i).take 3
    let results := mapIdxFrom (analysisOf reply tm ctx) i batch
    let done := i + batch.length
    let ev : ProgressEvent :=
      { type := "analyzing"
        message := "Analyzed " ++ toString done ++ "/" ++ toString maxFiles ++ " files"
        progress := evProg maxFiles done }
    let rest := schedLoop reply tm pf ctx maxFiles (i + 3)
    (results ++ rest.1, ev :: rest.2)
  else ([], [])
termination_by maxFiles - i
decreasing_by omega

/-- The whole batch-scheduling step: `maxFiles = Math.min(files.length, 30)`,
loop from `i = 0`. -/
def runScheduler (reply : Nat → AnalyzerReply) (tm : Nat → Nat × Nat)
    (pf : List GitHubFile) (ctx : ProjectContext) :
    List FileAnalysis × List ProgressEvent :=
  schedLoop reply tm pf ctx (min pf.length 30) 0

/-- Result of one pipeline run: the returned document, every `ProgressEvent`
handed to `onProgress` in emission order, and the number of LLM calls made:
one `create` per analyzed file (the cache stub always misses), one for the
overview iff the critical group is non-empty (`generateOverview` returns its
template before calling the provider otherwise), and one unconditional call
for the architecture section; the API-reference and getting-started sections
are derived without provider calls. -/
structure PipelineResult where
  doc : ProjectAnalysis
  events : List ProgressEvent
  llmCalls : Nat
deriving Inhabited

/-- `OptimizedDocumentationService.generateDocumentationStream`, stated over
well-formed analyzer replies (`AnalyzerReply`).
`prioritizeFiles` sorts the caller's array in place and returns the same
object, so every later read of `files` (the framework sniffing, the batch
slices) observes the sorted order `pf`.  The `ProjectContext` rebuilt for each
batch and for the compiler is the same value, so it is computed once.  In this
model every parsed reply is a well-formed `FileAnalysis`, and then nothing in
the `try` can throw when the progress sink is total (every `analyzeFile` and
every synthesis call catches its own errors and `Promise.allSettled` never
rejects), so the `catch` block is unreachable here and the run ends with the
`completed`/100 event.  That is **not** true of the source in general: an
unvalidated parsed object missing `filePath` or `importance` makes the
compiler stage throw and the `catch` emit a terminal `error` event with
progress 0 — the refined model `generateDocumentationStreamRaw` below
expresses that path. -/
def generateDocumentationStream (reply : Nat → AnalyzerReply) (tm : Nat → Nat × Nat)
    (ovR archR : TextReply) (pkgParse : String → Option (List String))
    (files : List GitHubFile) (info : RepositoryInfo) : PipelineResult :=
  let _categorized := categorizeFiles files
  let pf := prioritizeFiles files
  let ctx : ProjectContext :=
    { name := info.name
      description := info.description.getD ""
      framework := detectFramework pkgParse pf
      language := info.language.getD "unknown"
      patterns := [] }
  let sched := runScheduler reply tm pf ctx
  let analyses := sched.1
  let comp := synthesizeDocumentation ovR archR analyses ctx
  { doc := comp.1
    events :=
      { type := "started", message := "Starting documentation generation...", progress := 0 } ::
      { type := "started", message := "Analyzing project structure...", progress := 5 } ::
      { type := "categorized"
        message := "Organized " ++ toString pf.length ++ " files by importance"
        progress := 10 } ::
      (sched.2 ++
        ({ type := "compiling", message := "Generating documentation sections...", progress := 70 } ::
          (comp.2.map (fun p =>
            { type := "compiling", message := "Finalizing documentation...",
              progress := 70 + p * (3 / 10) }) ++
          [{ type := "completed", message := "Documentation generated successfully!",
             progress := 100 }])))
    llmCalls := analyses.length + (if (groupAnalyses analyses).critical.isEmpty then 0 else 1) + 1 }

/-- The empty-file-list guard of the `POST` route handler
(`src/app/api/generate-documentation-optimized/route.ts`): the 404 response is
produced **before** the pipeline service is invoked; only a non-empty list
reaches `generateDocumentationStream`. -/
def POSTgenerate (reply : Nat → AnalyzerReply) (tm : Nat → Nat × Nat)
    (ovR archR : TextReply) (pkgParse : String → Option (List String))
    (allFiles : List GitHubFile) (info : RepositoryInfo) :
    Except String PipelineResult :=
  if allFiles.length = 0 then
    .error "No suitable files found for documentation generation"
  else
    .ok (generateDocumentationStream reply tm ovR archR pkgParse allFiles info)

/-! ## Helper lemmas: the prioritizer is a stable descending sort -/

theorem sortInsert_perm (f : GitHubFile) (l : List GitHubFile) :
    (sortInsert f l).Perm (f :: l) := by
  induction l with
  | nil => exact List.Perm.refl _
  | cons g gs ih =>
    rw [sortInsert]
    split
    · exact (ih.cons g).trans (List.Perm.swap f g gs)
    · exact List.Perm.refl _

theorem prioritizeFiles_perm (l : List GitHubFile) : (prioritizeFiles l).Perm l := by
  induction l with
  | nil => exact List.Perm.refl _
  | cons f fs ih => exact (sortInsert_perm f (prioritizeFiles fs)).trans (ih.cons f)

theorem prioritizeFiles_length (l : List GitHubFile) :
    (prioritizeFiles l).length = l.length :=
  (prioritizeFiles_perm l).length_eq

theorem sortInsert_pairwise (f : GitHubFile) (l : List GitHubFile)
    (h : l.Pairwise (fun a b => filePriority b ≤ filePriority a)) :
    (sortInsert f l).Pairwise (fun a b => filePriority b ≤ filePriority a) := by
  induction l with
  | nil => simp [sortInsert]
  | cons g gs ih =>
    rw [sortInsert]
    rw [List.pairwise_cons] at h
    split
    · rename_i hlt
      refine List.Pairwise.cons ?_ (ih h.2)
      intro b hb
      rcases List.mem_cons.mp ((sortInsert_perm f gs).mem_iff.mp hb) with rfl | hb'
      · exact le_of_lt hlt
      · exact h.1 b hb'
    · rename_i hge
      refine List.Pairwise.cons ?_ (List.pairwise_cons.mpr h)
      intro b hb
      rcases List.mem_cons.mp hb with rfl | hb'
      · exact Nat.le_of_not_lt hge
      · exact le_trans (h.1 b hb') (Nat.le_of_not_lt hge)

theorem prioritizeFiles_pairwise (l : List GitHubFile) :
    (prioritizeFiles l).Pairwise (fun a b => filePriority b ≤ filePriority a) := by
  induction l with
  | nil => simp [prioritizeFiles]
  | cons f fs ih => exact sortInsert_pairwise f _ ih

theorem sortInsert_filter_category (c : String) (f : GitHubFile) (l : List GitHubFile) :
    (sortInsert f l).filter (fun g => determineCategory g == c) =
    (f :: l).filter (fun g => determineCategory g == c) := by
  induction l with
  | nil => rfl
  | cons g gs ih =>
    rw [sortInsert]
    split
    · rename_i hlt
      cases hf : (determineCategory f == c) <;> cases hg : (determineCategory g == c)
      · simp [List.filter_cons, hf, hg, ih]
      · simp [List.filter_cons, hf, hg, ih]
      · simp [List.filter_cons, hf, hg, ih]
      · exfalso
        have hfg : determineCategory f = determineCategory g := by
          rw [eq_of_beq hf, eq_of_beq hg]
        have hpp : filePriority f = filePriority g := by
          unfold filePriority; rw [hfg]
        omega
    · rfl

theorem prioritizeFiles_filter_category (c : String) (l : List GitHubFile) :
    (prioritizeFiles l).filter (fun g => determineCategory g == c) =
    l.filter (fun g => determineCategory g == c) := by
  induction l with
  | nil => rfl
  | cons f fs ih =>
    rw [prioritizeFiles, sortInsert_filter_category]
    simp only [List.filter_cons, ih]

/-! ## Claims C7, C5, C10, C2, C8, C9 -/

/-- C7: `determineCategory` is deterministic and total — every file maps to
exactly one of the six categories, with the first-match-wins precedence
core (\"main.\", \"index.\", \"app.\"), api (\"/api/\", \"/routes/\", \"route.\"),
components (\"/components/\", \"/ui/\"), config (\"config\", \".json\", \".yaml\"),
utils (\"/utils/\", \"/lib/\", \"/helpers/\"), else other, matched
case-insensitively on the path — exactly as `classifySpec`, the rule list
transcribed from the spec's words. -/
theorem claim_C7 (f : GitHubFile) :
    determineCategory f = classifySpec f ∧
    determineCategory f ∈ ["core", "api", "components", "config", "utils", "other"] := by
  refine ⟨rfl, ?_⟩
  unfold determineCategory
  dsimp only
  split_ifs <;> simp

/-- C5: `prioritizeFiles` is a stable sort, descending by the fixed weight
table core=100, api=80, components=60, utils=40, config=20, other=10: the
output is a permutation of the input, pairwise descending in priority (files
of differing categories appear in weight order), and for every category the
subsequence of files of that category equals its subsequence in the input
(ties keep relative input order).  Determinism across repeated runs is
immediate since `prioritizeFiles` is a function of the input list. -/
theorem claim_C5 (l : List GitHubFile) :
    (prioritizeFiles l).Perm l ∧
    (prioritizeFiles l).Pairwise (fun a b => filePriority b ≤ filePriority a) ∧
    (∀ c : String, (prioritizeFiles l).filter (fun g => determineCategory g == c) =
      l.filter (fun g => determineCategory g == c)) ∧
    priorityMap "core" = 100 ∧ priorityMap "api" = 80 ∧ priorityMap "components" = 60 ∧
    priorityMap "utils" = 40 ∧ priorityMap "config" = 20 ∧ priorityMap "other" = 10 :=
  ⟨prioritizeFiles_perm l, prioritizeFiles_pairwise l,
   fun c => prioritizeFiles_filter_category c l, rfl, rfl, rfl, rfl, rfl, rfl⟩

/-- C10: `prioritizeFiles` executes `files.sort(...)`, which reorders the
array object in place and returns that same object: the returned reference is
the argument reference, the array at that reference now holds the sorted
contents, and no other array is touched.  The orchestrator therefore keeps
reading the caller-supplied `files` array in sorted order after the call
(modelled in `generateDocumentationStream` by using `pf` for every later
read of `files`). -/
theorem claim_C10 (r : Nat) (h : ArrayHeap) :
    (prioritizeFilesInPlace r h).1 = r ∧
    (prioritizeFilesInPlace r h).2 r = prioritizeFiles (h r) ∧
    (∀ q, q ≠ r → (prioritizeFilesInPlace r h).2 q = h q) :=
  ⟨rfl, by simp [prioritizeFilesInPlace],
   fun q hq => by simp [prioritizeFilesInPlace, hq]⟩

def exHeap : ArrayHeap := fun _ => []

theorem claim_C10_witness :
    (prioritizeFilesInPlace 0 exHeap).1 = 0 ∧
    (prioritizeFilesInPlace 0 exHeap).2 0 = prioritizeFiles (exHeap 0) ∧
    (prioritizeFilesInPlace 0 exHeap).2 1 = exHeap 1 :=
  ⟨(claim_C10 0 exHeap).1, (claim_C10 0 exHeap).2.1,
   (claim_C10 0 exHeap).2.2 1 (by decide)⟩

/-- C2: on any error once the LLM call begins — provider rejection, missing
content, malformed JSON — `analyzeFile` does not throw: it returns the stub
`FileAnalysis` with importance "low", complexity 5, empty
functions/classes/dependencies, the failure summary
`${language} file - analysis failed`, the elapsed time, and the same cache key
any successful call on that file produces. -/
theorem claim_C2 (r : AnalyzerReply) (s n : Nat) (file : GitHubFile)
    (ctx : ProjectContext)
    (herr : r = .failure ∨ r = .noContent ∨ r = .badJson) :
    analyzeFile r s n file ctx =
      { filePath := file.path
        summary := file.language ++ " file - analysis failed"
        importance := "low"
        complexity := 5
        functions := []
        classes := []
        dependencies := []
        cacheKey := generateCacheKey file
        analysisTime := n - s } ∧
    (analyzeFile r s n file ctx).cacheKey = generateCacheKey file := by
  rcases herr with h | h | h <;> subst h <;> exact ⟨rfl, rfl⟩

def exFile : GitHubFile :=
  { name := "index.ts", path := "src/index.ts", content := "export const x = 1",
    language := "TypeScript", size := 18, sha := "abc" }

def exCtx : ProjectContext :=
  { name := "Demo", description := "", framework := "Next.js",
    language := "TypeScript", patterns := [] }

theorem claim_C2_witness :
    analyzeFile AnalyzerReply.failure 10 25 exFile exCtx =
      { filePath := exFile.path
        summary := exFile.language ++ " file - analysis failed"
        importance := "low"
        complexity := 5
        functions := []
        classes := []
        dependencies := []
        cacheKey := generateCacheKey exFile
        analysisTime := 15 } :=
  (claim_C2 AnalyzerReply.failure 10 25 exFile exCtx (Or.inl rfl)).1

/-- C8: the cache key is a pure function of path and content — two files with
identical path and content get identical keys, whatever their other fields —
and the key attached to the produced `FileAnalysis` never depends on the
provider outcome or on the clock readings: it is `generateCacheKey` of the
file on every path, stub or success. -/
theorem claim_C8 (f g : GitHubFile) (hpath : f.path = g.path)
    (hcontent : f.content = g.content) :
    generateCacheKey f = generateCacheKey g ∧
    (∀ (r : AnalyzerReply) (s n : Nat) (ctx : ProjectContext),
      (analyzeFile r s n f ctx).cacheKey = generateCacheKey f) := by
  constructor
  · unfold generateCacheKey
    rw [hpath, hcontent]
  · intro r s n ctx
    cases r <;> rfl

def exFileTwin : GitHubFile :=
  { name := "other-name.ts", path := "src/index.ts", content := "export const x = 1",
    language := "JavaScript", size := 999, sha := "zzz" }

theorem claim_C8_witness :
    generateCacheKey exFile = generateCacheKey exFileTwin :=
  (claim_C8 exFile exFileTwin rfl rfl).1

theorem string_mk_length (l : List Char) : (String.mk l).length = l.length := rfl

def exLongFile : GitHubFile :=
  { name := "big.ts", path := "src/big.ts",
    content := String.mk (List.replicate 8001 'a'),
    language := "TypeScript", size := 8001, sha := "big" }

/-- C9: a file whose content exceeds the 8000-character ceiling is still
analyzed — `analyzeFile` treats it exactly like any other file — and the
prompt sent embeds exactly the first 8000 characters of the content followed
by the truncation marker; content at or under the ceiling is embedded
unmodified. -/
theorem claim_C9 (file : GitHubFile) (ctx : ProjectContext) :
    (file.content.length > 8000 →
      buildFileAnalysisPrompt file ctx =
        promptPre file ctx ++ (String.mk (file.content.data.take 8000) ++ "\n... (truncated)") ++
          promptPost file) ∧
    (file.content.length ≤ 8000 →
      buildFileAnalysisPrompt file ctx =
        promptPre file ctx ++ file.content ++ promptPost file) ∧
    (∀ (a : FileAnalysis) (s n : Nat),
      analyzeFile (.parsed a) s n file ctx =
        { a with cacheKey := generateCacheKey file, analysisTime := n - s }) := by
  refine ⟨fun h => ?_, fun h => ?_, fun a s n => rfl⟩
  · rw [buildFileAnalysisPrompt, truncateContent, if_pos h]
  · rw [buildFileAnalysisPrompt, truncateContent, if_neg (by omega)]

theorem claim_C9_witness :
    buildFileAnalysisPrompt exLongFile exCtx =
      promptPre exLongFile exCtx ++
        (String.mk (exLongFile.content.data.take 8000) ++ "\n... (truncated)") ++
        promptPost exLongFile :=
  (claim_C9 exLongFile exCtx).1 (by
    have h : exLongFile.content.length = 8001 := by
      show (String.mk (List.replicate 8001 'a')).length = 8001
      rw [string_mk_length, List.length_replicate]
    omega)

/-! ## Helper lemmas: the batch scheduler -/

theorem evProg_lt_evProg (mf a b : Nat) (hmf : 0 < mf) (h : a < b) :
    evProg mf a < evProg mf b := by
  unfold evProg
  have hmf' : (0 : ℚ) < mf := by exact_mod_cast hmf
  have hd : ((a : ℚ)) / mf < (b : ℚ) / mf :=
    (div_lt_div_iff_of_pos_right hmf').mpr (by exact_mod_cast h)
  linarith

theorem evProg_le_70 (mf a : Nat) (hmf : 0 < mf) (h : a ≤ mf) : evProg mf a ≤ 70 := by
  unfold evProg
  have hmf' : (0 : ℚ) < mf := by exact_mod_cast hmf
  have h1 : ((a : ℚ)) / mf ≤ 1 := by
    rw [div_le_one hmf']; exact_mod_cast h
  linarith

theorem ten_lt_evProg (mf a : Nat) (hmf : 0 < mf) (h : 1 ≤ a) : 10 < evProg mf a := by
  unfold evProg
  have hmf' : (0 : ℚ) < mf := by exact_mod_cast hmf
  have h1 : (0 : ℚ) < (a : ℚ) / mf := div_pos (by exact_mod_cast h) hmf'
  linarith

theorem mapIdxFrom_append (g : Nat → GitHubFile → FileAnalysis) (l1 l2 : List GitHubFile) :
    ∀ j, mapIdxFrom g j (l1 ++ l2) = mapIdxFrom g j l1 ++ mapIdxFrom g (j + l1.length) l2 := by
  induction l1 with
  | nil => intro j; simp [mapIdxFrom]
  | cons f fs ih =>
    intro j
    show g j f :: mapIdxFrom g (j + 1) (fs ++ l2) =
      g j f :: (mapIdxFrom g (j + 1) fs ++ mapIdxFrom g (j + (fs.length + 1)) l2)
    rw [ih (j + 1)]
    have harith : j + 1 + fs.length = j + (fs.length + 1) := by omega
    rw [harith]

theorem mapIdxFrom_length (g : Nat → GitHubFile → FileAnalysis) :
    ∀ (j : Nat) (l : List GitHubFile), (mapIdxFrom g j l).length = l.length := by
  intro j l
  induction l generalizing j with
  | nil => rfl
  | cons f fs ih => simp [mapIdxFrom, ih]

/-- What the batch loop accumulates from index `i` on: one analysis per file of
the capped prioritized tail, in order, with oracle indices matching positions. -/
theorem schedLoop_fst (reply : Nat → AnalyzerReply) (tm : Nat → Nat × Nat)
    (pf : List GitHubFile) (ctx : ProjectContext) :
    ∀ (fuel i : Nat), min pf.length 30 - i ≤ fuel → 3 ∣ i →
      (schedLoop reply tm pf ctx (min pf.length 30) i).1 =
        mapIdxFrom (analysisOf reply tm ctx) i ((pf.take (min pf.length 30)).drop i) := by
  intro fuel
  induction fuel with
  | zero =>
    intro i hle h3
    have hni : ¬ i < min pf.length 30 := by omega
    have hdrop : (pf.take (min pf.length 30)).drop i = [] := by
      apply List.drop_eq_nil_of_le
      simp only [List.length_take]
      omega
    unfold schedLoop
    rw [if_neg hni, hdrop]
    rfl
  | succ k ih =>
    intro i hle h3
    by_cases hi : i < min pf.length 30
    · have hlen : min pf.length 30 ≤ pf.length := by omega
      have hrec := ih (i + 3) (by omega) (by omega)
      unfold schedLoop
      rw [if_pos hi]
      simp only
      rw [hrec]
      by_cases h3le : 3 ≤ min pf.length 30 - i
      · -- full batch of 3
        have hsplit : (pf.take (min pf.length 30)).drop i =
            (pf.drop i).take 3 ++ (pf.take (min pf.length 30)).drop (i + 3) := by
          rw [List.drop_take, List.drop_take]
          have h1 : min pf.length 30 - i = 3 + (min pf.length 30 - i - 3) := by omega
          rw [h1, List.take_add, List.drop_drop]
          have h2 : min pf.length 30 - (i + 3) = min pf.length 30 - i - 3 := by omega
          rw [h2]
        have hbl : ((pf.drop i).take 3).length = 3 := by
          simp only [List.length_take, List.length_drop]
          omega
        rw [hsplit, mapIdxFrom_append, hbl]
      · -- final short batch: the cap equals the list length here
        have hmfeq : min pf.length 30 = pf.length := by omega
        have htail : (pf.take (min pf.length 30)).drop (i + 3) = [] := by
          apply List.drop_eq_nil_of_le
          simp only [List.length_take]
          omega
        have hdropi : (pf.take (min pf.length 30)).drop i = pf.drop i := by
          rw [hmfeq, List.take_length]
        have hbatch : (pf.drop i).take 3 = pf.drop i := by
          apply List.take_of_length_le
          simp only [List.length_drop]
          omega
        rw [htail, hdropi, hbatch]
        simp [mapIdxFrom]
    · have hdrop : (pf.take (min pf.length 30)).drop i = [] := by
        apply List.drop_eq_nil_of_le
        simp only [List.length_take]
        omega
      unfold schedLoop
      rw [if_neg hi, hdrop]
      rfl

/-- Head of the event stream from index `j`: the event closing the batch that
starts at `j`, whose progress is `evProg` of the files processed through it. -/
theorem schedLoop_head (reply : Nat → AnalyzerReply) (tm : Nat → Nat × Nat)
    (pf : List GitHubFile) (ctx : ProjectContext) (mf j : Nat) :
    ∀ e ∈ (schedLoop reply tm pf ctx mf j).2.head?,
      e.progress = evProg mf (j + min 3 (pf.length - j)) := by
  intro e he
  unfold schedLoop at he
  split at he
  · simp only [List.head?_cons, Option.mem_def, Option.some.injEq] at he
    subst he
    simp [List.length_take, List.length_drop]
  · simp at he

/-- Every `analyzing` event from index `i` is typed `analyzing`, sits strictly
inside the (10, 70] band, and the stream is strictly increasing. -/
theorem schedLoop_events_spec (reply : Nat → AnalyzerReply) (tm : Nat → Nat × Nat)
    (pf : List GitHubFile) (ctx : ProjectContext) :
    ∀ (fuel i : Nat), min pf.length 30 - i ≤ fuel → 3 ∣ i →
      (∀ e ∈ (schedLoop reply tm pf ctx (min pf.length 30) i).2,
        e.type = "analyzing" ∧ 10 < e.progress ∧ e.progress ≤ 70) ∧
      List.Chain' (fun a b => a.progress < b.progress)
        (schedLoop reply tm pf ctx (min pf.length 30) i).2 := by
  intro fuel
  induction fuel with
  | zero =>
    intro i hle h3
    have hni : ¬ i < min pf.length 30 := by omega
    unfold schedLoop
    rw [if_neg hni]
    simp
  | succ k ih =>
    intro i hle h3
    by_cases hi : i < min pf.length 30
    · have hrec := ih (i + 3) (by omega) (by omega)
      have hmf0 : 0 < min pf.length 30 := by omega
      have hprog : (10 : ℚ) < evProg (min pf.length 30) (i + min 3 (pf.length - i)) ∧
          evProg (min pf.length 30) (i + min 3 (pf.length - i)) ≤ 70 := by
        constructor
        · exact ten_lt_evProg _ _ hmf0 (by omega)
        · exact evProg_le_70 _ _ hmf0 (by omega)
      unfold schedLoop
      rw [if_pos hi]
      simp only
      constructor
      · intro e he
        rcases List.mem_cons.mp he with rfl | he'
        · refine ⟨rfl, ?_, ?_⟩
          · simpa [List.length_take, List.length_drop] using hprog.1
          · simpa [List.length_take, List.length_drop] using hprog.2
        · exact hrec.1 e he'
      · apply List.chain'_cons'.mpr
        refine ⟨?_, hrec.2⟩
        intro e2 he2
        have h2 := schedLoop_head reply tm pf ctx (min pf.length 30) (i + 3) e2 he2
        -- the next batch exists only when i + 3 < mf
        have hlt : i + 3 < min pf.length 30 := by
          by_contra hn
          have : (schedLoop reply tm pf ctx (min pf.length 30) (i + 3)).2 = [] := by
            unfold schedLoop
            rw [if_neg (by omega)]
          rw [this] at he2
          simp at he2
        rw [h2]
        have hbl : ((pf.drop i).take 3).length = min 3 (pf.length - i) := by
          simp [List.length_take, List.length_drop]
        show evProg (min pf.length 30) (i + ((pf.drop i).take 3).length) <
          evProg (min pf.length 30) (i + 3 + min 3 (pf.length - (i + 3)))
        rw [hbl]
        exact evProg_lt_evProg _ _ _ hmf0 (by omega)
    · unfold schedLoop
      rw [if_neg hi]
      simp

/-- Number of batches run from index `i`: `⌈(mf - i) / 3⌉`. -/
theorem schedLoop_events_length (reply : Nat → AnalyzerReply) (tm : Nat → Nat × Nat)
    (pf : List GitHubFile) (ctx : ProjectContext) (mf : Nat) :
    ∀ (fuel i : Nat), mf - i ≤ fuel →
      (schedLoop reply tm pf ctx mf i).2.length = (mf - i + 2) / 3 := by
  intro fuel
  induction fuel with
  | zero =>
    intro i hle
    have hni : ¬ i < mf := by omega
    unfold schedLoop
    rw [if_neg hni]
    simp
    omega
  | succ k ih =>
    intro i hle
    by_cases hi : i < mf
    · have hrec := ih (i + 3) (by omega)
      unfold schedLoop
      rw [if_pos hi]
      simp only [List.length_cons, hrec]
      omega
    · unfold schedLoop
      rw [if_neg hi]
      simp
      omega

/-- File paths of collected analyses: a stub always carries the submitted
file's path; a parsed reply contributes the path contained in the reply, so if
every parsed reply echoes the prompted file's path, no foreign path appears. -/
theorem mapIdxFrom_filePath_mem (reply : Nat → AnalyzerReply) (tm : Nat → Nat × Nat)
    (ctx : ProjectContext) :
    ∀ (l : List GitHubFile) (i : Nat),
      (∀ j, j < l.length → ∀ a', reply (i + j) = AnalyzerReply.parsed a' →
        a'.filePath = (l.getD j default).path) →
      ∀ a ∈ mapIdxFrom (analysisOf reply tm ctx) i l,
        a.filePath ∈ l.map (fun f => f.path) := by
  intro l
  induction l with
  | nil =>
    intro i _ a ha
    simp [mapIdxFrom] at ha
  | cons f fs ih =>
    intro i hh a ha
    rcases List.mem_cons.mp ha with rfl | ha'
    · cases hr : reply i with
      | parsed a' =>
        have hfp : (analysisOf reply tm ctx i f).filePath = a'.filePath := by
          unfold analysisOf
          rw [hr]
          rfl
        rw [hfp, hh 0 (by simp) a' (by rwa [Nat.add_zero])]
        simp
      | failure =>
        have hfp : (analysisOf reply tm ctx i f).filePath = f.path := by
          unfold analysisOf
          rw [hr]
          rfl
        rw [hfp]
        simp
      | noContent =>
        have hfp : (analysisOf reply tm ctx i f).filePath = f.path := by
          unfold analysisOf
          rw [hr]
          rfl
        rw [hfp]
        simp
      | badJson =>
        have hfp : (analysisOf reply tm ctx i f).filePath = f.path := by
          unfold analysisOf
          rw [hr]
          rfl
        rw [hfp]
        simp
    · have hmem := ih (i + 1)
        (fun j hj a' hr => by
          have := hh (j + 1) (by simpa using Nat.succ_lt_succ hj) a'
            (by rwa [show i + 1 + j = i + (j + 1) by omega] at hr)
          simpa using this)
        a ha'
      simp only [List.map_cons]
      exact List.mem_cons_of_mem _ hmem

/-- C1 (amended): every file of the capped, prioritized list submitted to the
batch scheduler yields exactly one `FileAnalysis`, in submission order — the
collection handed to the compiler is literally one analysis per submitted
file, none dropped.  The fallback stub always carries the submitted file's
path, but a successful analysis takes `filePath` from the parsed LLM JSON
without validation; hence the no-foreign-path half holds under the hypothesis
that every parsed reply echoes the prompted file's own path (the prompt
requests this, but the code does not enforce it — see the counterexample). -/
theorem claim_C1 (reply : Nat → AnalyzerReply) (tm : Nat → Nat × Nat)
    (pf : List GitHubFile) (ctx : ProjectContext) :
    (runScheduler reply tm pf ctx).1 =
      mapIdxFrom (analysisOf reply tm ctx) 0 (pf.take (min pf.length 30)) ∧
    (runScheduler reply tm pf ctx).1.length = (pf.take (min pf.length 30)).length ∧
    ((∀ j, j < (pf.take (min pf.length 30)).length → ∀ a',
        reply j = AnalyzerReply.parsed a' →
        a'.filePath = ((pf.take (min pf.length 30)).getD j default).path) →
      ∀ a ∈ (runScheduler reply tm pf ctx).1,
        a.filePath ∈ (pf.take (min pf.length 30)).map (fun f => f.path)) := by
  have h1 : (runScheduler reply tm pf ctx).1 =
      mapIdxFrom (analysisOf reply tm ctx) 0 ((pf.take (min pf.length 30)).drop 0) :=
    schedLoop_fst reply tm pf ctx (min pf.length 30) 0 (by omega) (dvd_zero 3)
  rw [List.drop_zero] at h1
  refine ⟨h1, ?_, ?_⟩
  · rw [h1, mapIdxFrom_length]
  · intro hh a ha
    rw [h1] at ha
    exact mapIdxFrom_filePath_mem reply tm ctx _ 0
      (fun j hj a' hr => hh j hj a' (by rwa [Nat.zero_add] at hr)) a ha

def evilAnalysis : FileAnalysis :=
  { filePath := "evil.ts", summary := "s", importance := "high", complexity := 1,
    functions := [], classes := [], dependencies := [], cacheKey := "", analysisTime := 0 }

def evilReply : Nat → AnalyzerReply := fun _ => AnalyzerReply.parsed evilAnalysis

def zeroTm : Nat → Nat × Nat := fun _ => (0, 0)

/-- C1 counterexample: one submitted file `src/index.ts`, and an LLM reply
that parses to a `FileAnalysis` whose `filePath` is `evil.ts`.  The collection
handed to the compiler then contains a `FileAnalysis` whose `filePath` is
absent from the submitted files, because the parsed JSON is trusted without
validation. -/
theorem claim_C1_counterexample :
    ((runScheduler evilReply zeroTm [exFile] exCtx).1.map (fun a => a.filePath)) =
      ["evil.ts"] ∧
    ¬ ("evil.ts" ∈ [exFile].map (fun f => f.path)) := by
  constructor
  · have h1 : (runScheduler evilReply zeroTm [exFile] exCtx).1 =
        mapIdxFrom (analysisOf evilReply zeroTm exCtx) 0
          (([exFile].take (min ([exFile] : List GitHubFile).length 30)).drop 0) :=
      schedLoop_fst evilReply zeroTm [exFile] exCtx (min ([exFile] : List GitHubFile).length 30) 0
        (by omega) (dvd_zero 3)
    rw [h1]
    rfl
  · simp [exFile]

def honestAnalysis : FileAnalysis :=
  { filePath := "src/index.ts", summary := "s", importance := "high", complexity := 1,
    functions := [], classes := [], dependencies := [], cacheKey := "", analysisTime := 0 }

def honestReply : Nat → AnalyzerReply := fun _ => AnalyzerReply.parsed honestAnalysis

theorem claim_C1_witness :
    (analyzeFile (honestReply 0) (zeroTm 0).1 (zeroTm 0).2 exFile exCtx).filePath ∈
      [exFile].map (fun f => f.path) := by
  have h := claim_C1 honestReply zeroTm [exFile] exCtx
  apply h.2.2
  · intro j hj a' hr
    have hj0 : j = 0 := by
      simp [List.length_take] at hj
      omega
    subst hj0
    have ha' : a' = honestAnalysis := by
      injection hr with h'
      exact h'.symm
    subst ha'
    rfl
  · rw [h.1]
    exact List.mem_singleton.mpr rfl

/-- C6: when more than 30 files are input, exactly 30 are analyzed — the first
30 of the prioritized order, one analysis each in order — in batches of 3 run
sequentially, i.e. exactly 10 batches, each closing with an `analyzing` event
whose progress values are strictly increasing within the 10–70 band. -/
theorem claim_C6 (reply : Nat → AnalyzerReply) (tm : Nat → Nat × Nat)
    (files : List GitHubFile) (ctx : ProjectContext) (h30 : 30 < files.length) :
    (runScheduler reply tm (prioritizeFiles files) ctx).1 =
      mapIdxFrom (analysisOf reply tm ctx) 0 ((prioritizeFiles files).take 30) ∧
    (runScheduler reply tm (prioritizeFiles files) ctx).1.length = 30 ∧
    (runScheduler reply tm (prioritizeFiles files) ctx).2.length = 10 ∧
    List.Chain' (fun a b => a.progress < b.progress)
      (runScheduler reply tm (prioritizeFiles files) ctx).2 ∧
    (∀ e ∈ (runScheduler reply tm (prioritizeFiles files) ctx).2,
      e.type = "analyzing" ∧ 10 < e.progress ∧ e.progress ≤ 70) := by
  have hlen : (prioritizeFiles files).length = files.length := prioritizeFiles_length files
  have hmf : min (prioritizeFiles files).length 30 = 30 := by omega
  have h1 : (runScheduler reply tm (prioritizeFiles files) ctx).1 =
      mapIdxFrom (analysisOf reply tm ctx) 0
        (((prioritizeFiles files).take (min (prioritizeFiles files).length 30)).drop 0) :=
    schedLoop_fst reply tm (prioritizeFiles files) ctx
      (min (prioritizeFiles files).length 30) 0 (by omega) (dvd_zero 3)
  rw [List.drop_zero, hmf] at h1
  have hspec := schedLoop_events_spec reply tm (prioritizeFiles files) ctx
    (min (prioritizeFiles files).length 30) 0 (by omega) (dvd_zero 3)
  have hlen2 := schedLoop_events_length reply tm (prioritizeFiles files) ctx
    (min (prioritizeFiles files).length 30) (min (prioritizeFiles files).length 30) 0 (by omega)
  refine ⟨h1, ?_, ?_, hspec.2, hspec.1⟩
  · rw [h1, mapIdxFrom_length]
    simp [List.length_take]
    omega
  · have : (runScheduler reply tm (prioritizeFiles files) ctx).2.length =
        (min (prioritizeFiles files).length 30 - 0 + 2) / 3 := hlen2
    rw [this, hmf]

def files45 : List GitHubFile := List.replicate 45 exFile

def constFailReply : Nat → AnalyzerReply := fun _ => AnalyzerReply.failure

def constTm : Nat → Nat × Nat := fun _ => (0, 5)

theorem claim_C6_witness :
    (runScheduler constFailReply constTm (prioritizeFiles files45) exCtx).1.length = 30 ∧
    (runScheduler constFailReply constTm (prioritizeFiles files45) exCtx).2.length = 10 := by
  have h := claim_C6 constFailReply constTm files45 exCtx (by norm_num [files45])
  exact ⟨h.2.1, h.2.2.1⟩

/-! ## Claim C3: empty file list -/

theorem synthesizeDocumentation_snd (ovR archR : TextReply)
    (analyses : List FileAnalysis) (ctx : ProjectContext) :
    (synthesizeDocumentation ovR archR analyses ctx).2 = [75, 90, 100] := rfl

theorem runScheduler_nil (reply : Nat → AnalyzerReply) (tm : Nat → Nat × Nat)
    (ctx : ProjectContext) : runScheduler reply tm [] ctx = ([], []) := by
  unfold runScheduler schedLoop
  simp

def noTextReply : TextReply := TextReply.content none

def noPkgParse : String → Option (List String) := fun _ => none

def cInfo : RepositoryInfo :=
  { name := "EmptyRepo", fullName := "o/empty", description := none, language := none,
    topics := [], defaultBranch := "main" }

def emptyRun : PipelineResult :=
  generateDocumentationStream constFailReply constTm noTextReply noTextReply noPkgParse [] cInfo

/-- C3 counterexample: on the empty file list, `generateDocumentationStream`
does **not** raise a "no files" error: it runs to completion, emits no `error`
event, ends with the `completed`/100 event, returns a documentation object
(`emptyRun.doc`), and still makes one LLM call (the unconditional architecture
synthesis).  The "no files" guard lives in the route handler, not here. -/
theorem claim_C3_counterexample :
    emptyRun.events.getLast? =
      some { type := "completed", message := "Documentation generated successfully!",
             progress := 100 } ∧
    emptyRun.events.filter (fun e => e.type == "error") = [] ∧
    emptyRun.llmCalls = 1 := by
  refine ⟨?_, ?_, ?_⟩ <;>
    simp [emptyRun, generateDocumentationStream, prioritizeFiles, runScheduler_nil,
      groupAnalyses, synthesizeDocumentation_snd]

/-- C3 (amended): for the empty input file list the "no files" rejection is
issued by the HTTP route handler, which returns the 404-style error before the
pipeline service or any LLM is invoked; the pipeline entry point itself, given
an empty list, does not error: it emits no `error` event, ends with the
terminal `completed` event at progress 100, returns a documentation object,
and makes exactly one LLM call (the architecture synthesis, which has no
emptiness guard). -/
theorem claim_C3 (reply : Nat → AnalyzerReply) (tm : Nat → Nat × Nat)
    (ovR archR : TextReply) (pkg : String → Option (List String))
    (info : RepositoryInfo) :
    POSTgenerate reply tm ovR archR pkg [] info =
      Except.error "No suitable files found for documentation generation" ∧
    (generateDocumentationStream reply tm ovR archR pkg [] info).events.getLast? =
      some { type := "completed", message := "Documentation generated successfully!",
             progress := 100 } ∧
    (generateDocumentationStream reply tm ovR archR pkg [] info).events.filter
      (fun e => e.type == "error") = [] ∧
    (generateDocumentationStream reply tm ovR archR pkg [] info).llmCalls = 1 := by
  refine ⟨rfl, ?_, ?_, ?_⟩ <;>
    simp [generateDocumentationStream, prioritizeFiles, runScheduler_nil, groupAnalyses,
      synthesizeDocumentation_snd]

/-! ## Claim C4: progress monotonicity and terminal event -/

